import Mathlib

/-!
Verification of `src/sr-helper.py` (easy-st repository).

The Python script is shallowly embedded below.  Script bodies are modelled as
`String` values built by the same concatenations the source performs; file
writes are modelled as `(path, content)` pairs in the order the source writes
them; Python dictionary accesses that can raise `KeyError` are modelled with
`Except String`; Python's dynamically-typed `bytes.split` is modelled by a
function that distinguishes a `bytes` separator from a `str` separator, as the
interpreter does.
-/

namespace SrHelper

/-- Source line 36: the human reference version string. -/
def HUMAN_REFERENCE_VERSION : String := "refdata-gex-GRCh38-2020-A"

/-- Source line 38: the mouse reference version string. -/
def MOUSE_REFERENCE_VERSION : String := "refdata-gex-mm10-2020-A"

/-- One entry of the `samples` array of a configuration, with every key
present (the total model used once a configuration has been validated).
Mirrors the sample dictionaries read by `generate_scripts`
(source lines 161-219): keys `name`, `FASTQ`, `image`, `slide`, `area`,
the last two being nullable. -/
structure Sample where
  name : String
  FASTQ : String
  image : String
  slide : Option String
  area : Option String
deriving DecidableEq

/-- A configuration with every top-level key present, mirroring the JSON
object read by `generate_scripts` (source lines 152-219). -/
structure Config where
  pipelineName : String
  sratoolkitActivation : String
  spaceRangerDirectory : String
  genomeDirectory : String
  reference : String
  rawDataDirectory : String
  scriptDirectory : String
  resultDirectory : String
  version : String
  samples : List Sample
deriving DecidableEq

/-- Source lines 59-67, `_get_script_header`. -/
def getScriptHeader (account time : String) (mem cpus : Nat) : String :=
  "#!/bin/bash\n"
  ++ ("#SBATCH --account=" ++ account ++ "\n")
  ++ ("#SBATCH --time=" ++ time ++ "\n")
  ++ ("#SBATCH --mem=" ++ toString mem ++ "G\n")
  ++ ("#SBATCH --cpus-per-task=" ++ toString cpus ++ "\n\n")

/-- Source line 155: `fastqs = f"{out}/fastq"`. -/
def fastqsDir (cfg : Config) : String := cfg.rawDataDirectory ++ "/fastq"

/-- Source line 163: `path = f"{fastqs}/{sample['name']}"`. -/
def samplePath (cfg : Config) (s : Sample) : String :=
  fastqsDir cfg ++ "/" ++ s.name

/-- Source line 165: `name_root = f"{path}/{configuration['pipeline name']}_S1_L001_"`. -/
def nameRoot (cfg : Config) (s : Sample) : String :=
  samplePath cfg s ++ "/" ++ cfg.pipelineName ++ "_S1_L001_"

/-- Source lines 166-182: the download script body, one Lean `++` operand per
Python `+` operand. -/
def downloadScript (cfg : Config) (account : String) (s : Sample) : String :=
  getScriptHeader account "00:30:00" 16 1
  ++ (cfg.sratoolkitActivation ++ "\n\n")
  ++ ("fasterq-dump " ++ samplePath cfg s ++ "\n\n")
  ++ ("search_dir=" ++ samplePath cfg s ++ "\n")
  ++ "for file in $search_dir/*; do\n"
  ++ "    echo $file\n"
  ++ "    if [[ $file == *\"_1.fastq\" ]]; then\n"
  ++ ("        mv $file " ++ nameRoot cfg s ++ "_R1_001.fastq\n")
  ++ "    elif [[ $file == *\"_2.fastq\" ]]; then\n"
  ++ ("        mv $file " ++ nameRoot cfg s ++ "_R2_001.fastq\n")
  ++ "    else\n"
  ++ ("        mv $file " ++ nameRoot cfg s ++ "_R1_001.fastq\n")
  ++ "    fi\n"
  ++ "done\n\n"
  ++ ("cp " ++ s.image ++ " " ++ samplePath cfg s ++ "/image.tiff\n")

/-- Source lines 185-188: `reference == "human"` selects the human version,
anything else the mouse version. -/
def transcriptome (cfg : Config) : String :=
  if cfg.reference = "human" then HUMAN_REFERENCE_VERSION else MOUSE_REFERENCE_VERSION

/-- Source line 189: `transcriptome_path = f"{configuration['genome directory']}/{transcriptome}"`. -/
def transcriptomePath (cfg : Config) : String :=
  cfg.genomeDirectory ++ "/" ++ transcriptome cfg

/-- Source line 184: `sr_source = f"{configuration['space ranger directory']}/sourceme.bash"`. -/
def srSource (cfg : Config) : String :=
  cfg.spaceRangerDirectory ++ "/sourceme.bash"

/-- Source lines 190-196: the slide-addressing clause.  The source takes the
`--unknown-slide` branch when `sample["slide"] == None or sample["area"] == None`,
i.e. exactly when the two fields are not both present. -/
def slideClause (cfg : Config) (s : Sample) : String :=
  match s.slide, s.area with
  | some sl, some ar => "  --slide=" ++ sl ++ " \\\n" ++ ("  --area=" ++ ar)
  | _, _ => "  --unknown-slide=" ++ cfg.version

/-- Source lines 197-210 with the slide clause abstracted, so that the same
body can be reused by the partial-configuration model. -/
def processScriptCore (cfg : Config) (account : String) (s : Sample)
    (slideStr : String) : String :=
  getScriptHeader account "00:55:00" 64 8
  ++ ("source " ++ srSource cfg ++ "\n\n")
  ++ "spaceranger count \\\n"
  ++ ("  --id=" ++ cfg.resultDirectory ++ " \\\n")
  ++ ("  --transcriptome=" ++ transcriptomePath cfg ++ " \\\n")
  ++ ("  --fastqs=" ++ samplePath cfg s ++ " \\\n")
  ++ ("  --sample=" ++ s.name ++ " \\\n")
  ++ ("  --image=" ++ s.image ++ " \\\n")
  ++ "  --localcores=8 \\\n"
  ++ "  --localmem=64 \\\n"
  ++ "  -create-bam=false \\\n"
  ++ slideStr

/-- Source lines 197-210: the space ranger processing script body. -/
def processScript (cfg : Config) (account : String) (s : Sample) : String :=
  processScriptCore cfg account s (slideClause cfg s)

/-- Source line 213: `download_name = f'{out}/download_{i}.sh'`. -/
def downloadName (cfg : Config) (i : Nat) : String :=
  cfg.scriptDirectory ++ "/download_" ++ toString i ++ ".sh"

/-- Source line 216: `process_name = f'{out}/process_{i}.sh'`. -/
def processName (cfg : Config) (i : Nat) : String :=
  cfg.scriptDirectory ++ "/process_" ++ toString i ++ ".sh"

/-- The body of the `for i, sample in enumerate(configuration["samples"])`
loop of `generate_scripts` (source lines 161-219), accumulating the file
writes `(path, content)` in the order the source performs them. -/
def scriptsLoop (cfg : Config) (account : String) : Nat → List Sample → List (String × String)
  | _, [] => []
  | i, s :: rest =>
    (downloadName cfg i, downloadScript cfg account s)
      :: (processName cfg i, processScript cfg account s)
      :: scriptsLoop cfg account (i + 1) rest

/-- Source lines 146-219, `generate_scripts` on a fully populated
configuration: the list of script files written, in write order. -/
def generateScripts (cfg : Config) (account : String) : List (String × String) :=
  scriptsLoop cfg account 0 cfg.samples

/-- `occursIn pat s` states that `pat` occurs as a contiguous substring of `s`. -/
def occursIn (pat s : String) : Prop :=
  pat.data <:+: s.data

instance (pat s : String) : Decidable (occursIn pat s) := by
  unfold occursIn; infer_instance

/-! ### The CLI dispatcher (source lines 239-279) -/

/-- The four command handlers defined by the source
(`install_dependencies`, `create_config`, `generate_scripts`, `run_scripts`). -/
inductive Handler where
  | installDependencies
  | createConfig
  | generateScripts
  | runScripts
deriving DecidableEq

/-- Source lines 239-279: the mapping from subcommand to the handler function
installed by `set_defaults(func=...)`.  Note that line 273 installs
`install_dependencies` for the `run-scripts` subparser. -/
def subcommandHandler : String → Option Handler
  | "get-dependencies" => some Handler.installDependencies
  | "create-config" => some Handler.createConfig
  | "generate-scripts" => some Handler.generateScripts
  | "run-scripts" => some Handler.installDependencies
  | _ => none

/-! ### The queue-polling wait (source lines 70-78) and `run_scripts` (222-235)

`subprocess.run(["sq"], capture_output=True)` is invoked without `text=True`,
so `p.stdout` is a `bytes` object; line 74 then calls `p.stdout.split("\n")`
with a `str` separator.  In Python 3, `bytes.split` accepts only a bytes-like
separator and raises `TypeError: a bytes-like object is required, not 'str'`
otherwise.  The model keeps both the `bytes`-separator behaviour (a real
split) and the `str`-separator behaviour (the `TypeError`). -/

/-- A separator value passed to `bytes.split`: either a `bytes` value (a list
of byte values) or a `str` value. -/
inductive PySep where
  | bytesSep (sep : List Nat)
  | strSep (sep : String)

/-- Fuel-driven splitting of a byte string on a non-empty separator,
mirroring Python `bytes.split(sep)` for a bytes-like `sep`. -/
def splitBytesAux (sep : List Nat) : Nat → List Nat → List Nat → List (List Nat)
  | 0, acc, rest => [acc.reverse ++ rest]
  | fuel + 1, acc, rest =>
    match rest with
    | [] => [acc.reverse]
    | c :: rs =>
      if sep.isPrefixOf (c :: rs) then
        acc.reverse :: splitBytesAux sep fuel [] (List.drop sep.length (c :: rs))
      else
        splitBytesAux sep fuel (c :: acc) rs

/-- Python `bytes.split` applied to a `bytes` or `str` separator.  An empty
`bytes` separator raises `ValueError`; a `str` separator raises `TypeError`. -/
def bytesSplit (b : List Nat) : PySep → Except String (List (List Nat))
  | PySep.bytesSep sep =>
    if sep = [] then Except.error "ValueError: empty separator"
    else Except.ok (splitBytesAux sep (b.length + 1) [] b)
  | PySep.strSep _ => Except.error "TypeError: a bytes-like object is required, not 'str'"

/-- The loop body of `_wait_until_clear` (source lines 72-78): on iteration
`i` the scheduler-status stub yields the bytes `stub i`; the source computes
`len(p.stdout.split("\n")) - 1` and stops when the result is below 1.
The first argument is the remaining fuel of `for _ in range(60)`. -/
def waitLoop (stub : Nat → List Nat) : Nat → Nat → Except String Unit
  | 0, _ => Except.ok ()
  | fuel + 1, i =>
    match bytesSplit (stub i) (PySep.strSep "\n") with
    | Except.error e => Except.error e
    | Except.ok parts =>
      if parts.length - 1 < 1 then Except.ok ()
      else waitLoop stub fuel (i + 1)

/-- Source lines 70-78, `_wait_until_clear`, given a stub for the standard
output of the scheduler-status command on each polling iteration. -/
def waitUntilClear (stub : Nat → List Nat) : Except String Unit :=
  waitLoop stub 60 0

/-- `_wait_until_clear` fails with a `TypeError` on its first polling
iteration, whatever the scheduler-status command prints, because
`p.stdout` is `bytes` and the separator `"\n"` is `str`. -/
theorem waitUntilClear_eq_error (stub : Nat → List Nat) :
    waitUntilClear stub
      = Except.error "TypeError: a bytes-like object is required, not 'str'" := rfl

/-- Models Python's `"sub" in s` membership test on strings. -/
def pyIn (sub s : String) : Bool :=
  decide (sub.data <:+: s.data)

/-- Source lines 222-235, `run_scripts`: given the directory listing, submit
(in listing order) every script whose name contains "download", run
`_wait_until_clear`, then submit every script whose name contains "process".
The result is the list of submitted script paths in submission order,
together with the uncaught exception, if any, that aborted the run. -/
def runScripts (dir : String) (listing : List String) (stub : Nat → List Nat) :
    List String × Option String :=
  let first := (listing.filter fun s => pyIn "download" s).map fun s => dir ++ "/" ++ s
  match waitUntilClear stub with
  | Except.error e => (first, some e)
  | Except.ok _ =>
    (first ++ ((listing.filter fun s => pyIn "process" s).map fun s => dir ++ "/" ++ s),
      none)

/-! ### Decimal numerals are injective

The file names `download_{i}.sh` / `process_{i}.sh` embed the decimal
rendering of the loop index (`toString i`, i.e. `Nat.repr`).  To show the
generated file names are pairwise distinct we prove that `Nat.repr` is
injective, via a decimal-evaluation round trip. -/

/-- Numeric value of a decimal digit character. -/
def charVal (c : Char) : Nat := c.toNat - 48

/-- Decimal value of a digit string. -/
def digitsVal (l : List Char) : Nat :=
  l.foldl (fun a c => 10 * a + charVal c) 0

theorem digitsVal_append_singleton (l : List Char) (c : Char) :
    digitsVal (l ++ [c]) = 10 * digitsVal l + charVal c := by
  simp [digitsVal, List.foldl_append]

theorem charVal_digitChar (n : Nat) (h : n < 10) : charVal (Nat.digitChar n) = n := by
  interval_cases n <;> decide

theorem toDigitsCore_acc (b : Nat) :
    ∀ (f n : Nat) (acc : List Char),
      Nat.toDigitsCore b f n acc = Nat.toDigitsCore b f n [] ++ acc := by
  intro f
  induction f with
  | zero => intro n acc; simp [Nat.toDigitsCore]
  | succ f ih =>
    intro n acc
    simp only [Nat.toDigitsCore]
    by_cases h : n / b = 0
    · simp [h]
    · simp only [h, if_false]
      rw [ih (n / b) (Nat.digitChar (n % b) :: acc),
        ih (n / b) (Nat.digitChar (n % b) :: [])]
      simp

theorem toDigitsCore_val :
    ∀ f n : Nat, n < f → digitsVal (Nat.toDigitsCore 10 f n []) = n := by
  intro f
  induction f with
  | zero => intro n h; omega
  | succ f ih =>
    intro n h
    simp only [Nat.toDigitsCore]
    by_cases h0 : n / 10 = 0
    · have hn : n < 10 := by omega
      simp only [h0, if_true]
      have : digitsVal [Nat.digitChar (n % 10)] = charVal (Nat.digitChar (n % 10)) := by
        simp [digitsVal]
      rw [this, charVal_digitChar (n % 10) (Nat.mod_lt _ (by norm_num))]
      omega
    · simp only [h0, if_false]
      rw [toDigitsCore_acc, digitsVal_append_singleton]
      have hpos : 0 < n := by omega
      have hlt : n / 10 < f := by
        have := Nat.div_lt_self hpos (show 1 < 10 by norm_num)
        omega
      rw [ih (n / 10) hlt, charVal_digitChar (n % 10) (Nat.mod_lt _ (by norm_num))]
      omega

theorem natRepr_inj {m n : Nat} (h : Nat.repr m = Nat.repr n) : m = n := by
  have hdata : Nat.toDigitsCore 10 (m + 1) m [] = Nat.toDigitsCore 10 (n + 1) n [] :=
    congrArg String.data h
  have hm := toDigitsCore_val (m + 1) m (by omega)
  have hn := toDigitsCore_val (n + 1) n (by omega)
  rw [hdata, hn] at hm
  exact hm.symm

theorem string_data_inj {s t : String} (h : s.data = t.data) : s = t := by
  cases s; exact congrArg String.mk h

/-! ### Distinctness of the generated file names -/

theorem downloadName_ne_processName (cfg : Config) (i j : Nat) :
    downloadName cfg i ≠ processName cfg j := by
  intro h
  have h' := congrArg String.data h
  simp only [downloadName, processName, String.data_append, List.append_assoc] at h'
  have h'' := List.append_cancel_left h'
  simp at h''

theorem downloadName_inj (cfg : Config) (i j : Nat)
    (h : downloadName cfg i = downloadName cfg j) : i = j := by
  have h' := congrArg String.data h
  simp only [downloadName, String.data_append, List.append_assoc] at h'
  have h'' := List.append_cancel_left (List.append_cancel_left h')
  exact natRepr_inj (string_data_inj (List.append_cancel_right h''))

theorem processName_inj (cfg : Config) (i j : Nat)
    (h : processName cfg i = processName cfg j) : i = j := by
  have h' := congrArg String.data h
  simp only [processName, String.data_append, List.append_assoc] at h'
  have h'' := List.append_cancel_left (List.append_cancel_left h')
  exact natRepr_inj (string_data_inj (List.append_cancel_right h''))

/-- The full name list written by `generate_scripts` for indices `0..n-1`. -/
def fileNames (cfg : Config) (n : Nat) : List String :=
  (List.range n).flatMap fun i => [downloadName cfg i, processName cfg i]

theorem fileNames_nodup (cfg : Config) : ∀ n : Nat, (fileNames cfg n).Nodup := by
  intro n
  induction n with
  | zero => simp [fileNames]
  | succ n ih =>
    have hsplit : fileNames cfg (n + 1)
        = fileNames cfg n ++ [downloadName cfg n, processName cfg n] := by
      simp [fileNames, List.range_succ]
    rw [hsplit, List.nodup_append]
    refine ⟨ih, by simp [downloadName_ne_processName cfg n n], ?_⟩
    intro x hx hx'
    obtain ⟨i, hi, hxi⟩ := List.mem_flatMap.mp hx
    have hilt : i < n := List.mem_range.mp hi
    simp only [List.mem_cons, List.not_mem_nil, or_false] at hxi hx'
    rcases hxi with hxi | hxi <;> rcases hx' with hx' | hx'
    · exact absurd (downloadName_inj cfg i n (hxi ▸ hx')) (by omega)
    · exact downloadName_ne_processName cfg i n (hxi ▸ hx')
    · exact downloadName_ne_processName cfg n i (hx' ▸ hxi.symm).symm
    · exact absurd (processName_inj cfg i n (hxi ▸ hx')) (by omega)

/-! ### Structure of the write list of `generate_scripts` -/

theorem scriptsLoop_map_fst (cfg : Config) (account : String) :
    ∀ (ss : List Sample) (i : Nat),
      (scriptsLoop cfg account i ss).map Prod.fst
        = (List.range' i ss.length).flatMap fun j => [downloadName cfg j, processName cfg j] := by
  intro ss
  induction ss with
  | nil => intro i; simp [scriptsLoop]
  | cons s rest ih =>
    intro i
    simp [scriptsLoop, List.range', ih (i + 1)]

theorem scriptsLoop_length (cfg : Config) (account : String) :
    ∀ (ss : List Sample) (i : Nat),
      (scriptsLoop cfg account i ss).length = 2 * ss.length := by
  intro ss
  induction ss with
  | nil => intro i; simp [scriptsLoop]
  | cons s rest ih =>
    intro i
    simp [scriptsLoop, ih (i + 1)]
    omega

theorem generateScripts_map_fst (cfg : Config) (account : String) :
    (generateScripts cfg account).map Prod.fst = fileNames cfg cfg.samples.length := by
  rw [generateScripts, scriptsLoop_map_fst, fileNames, List.range_eq_range' cfg.samples.length]

/-! ### Claims C1, C2, C6 (dispatcher and job submitter) -/

/-- C1: the claim states that the CLI subcommand `run-scripts <dir>` invokes
the Job Submitter (`run_scripts`) and no other handler.  The source wires the
`run-scripts` subparser to `install_dependencies` instead
(line 273: `run.set_defaults(func=install_dependencies)`), so the subcommand
invokes the dependency installer, not the submitter. -/
theorem C1_run_scripts_wired_to_install_dependencies :
    subcommandHandler "run-scripts" = some Handler.installDependencies ∧
    subcommandHandler "run-scripts" ≠ some Handler.runScripts := by
  constructor
  · rfl
  · decide

/-- C2: the claim states that the queue-polling wait counts non-empty output
lines minus one, waits while the count is at least 1, proceeds at count 0,
and gives up after 60 iterations.  In the source, `p.stdout` is a `bytes`
object (the `subprocess.run` call uses `capture_output=True` without text
mode) and line 74 calls `.split("\n")` with a `str` separator, which raises
`TypeError` on the very first poll: no count is ever computed, whatever the
scheduler-status stub returns. -/
theorem C2_wait_until_clear_raises_type_error (stub : Nat → List Nat) :
    waitUntilClear stub
      = Except.error "TypeError: a bytes-like object is required, not 'str'" :=
  waitUntilClear_eq_error stub

/-- C6: the claim states that `run_scripts` submits every filename containing
"download" before any filename containing "process" and never submits other
files.  In the source, after submitting the download scripts the call to
`_wait_until_clear` raises `TypeError` (see C2), so the run aborts and the
process scripts are never submitted: for every directory listing, the
submission trace consists exactly of the "download" filenames in listing
order, followed by the uncaught exception. -/
theorem C6_run_scripts_aborts_before_process_phase
    (dir : String) (listing : List String) (stub : Nat → List Nat) :
    runScripts dir listing stub
      = ((listing.filter fun s => pyIn "download" s).map fun s => dir ++ "/" ++ s,
          some "TypeError: a bytes-like object is required, not 'str'") := by
  unfold runScripts
  rw [waitUntilClear_eq_error]

/-! ### Claim C3 (file names) -/

/-- C3: for every configuration with `N` samples, `generate_scripts` writes
exactly `2 * N` script files, the file-name sequence being exactly
`download_0.sh, process_0.sh, ..., download_{N-1}.sh, process_{N-1}.sh`
in the configured script directory (index = position in the sample list),
and these names are pairwise distinct. -/
theorem C3_generate_scripts_file_names (cfg : Config) (account : String) :
    (generateScripts cfg account).map Prod.fst
      = ((List.range cfg.samples.length).flatMap fun i =>
          [cfg.scriptDirectory ++ "/download_" ++ toString i ++ ".sh",
           cfg.scriptDirectory ++ "/process_" ++ toString i ++ ".sh"])
    ∧ (generateScripts cfg account).length = 2 * cfg.samples.length
    ∧ ((generateScripts cfg account).map Prod.fst).Nodup := by
  refine ⟨?_, ?_, ?_⟩
  · exact generateScripts_map_fst cfg account
  · exact scriptsLoop_length cfg account cfg.samples 0
  · rw [generateScripts_map_fst]
    exact fileNames_nodup cfg cfg.samples.length

/-! ### Claim C9 (the FASTQ field has no influence) -/

/-- Replace the `FASTQ` field of the `i`-th sample. -/
def setFastq : List Sample → Nat → String → List Sample
  | [], _, _ => []
  | s :: rest, 0, v => { s with FASTQ := v } :: rest
  | s :: rest, i + 1, v => s :: setFastq rest i v

theorem scriptsLoop_setFastq (cfg : Config) (account : String) :
    ∀ (ss : List Sample) (i j : Nat) (v : String),
      scriptsLoop cfg account j (setFastq ss i v) = scriptsLoop cfg account j ss := by
  intro ss
  induction ss with
  | nil => intro i j v; rfl
  | cons s rest ih =>
    intro i j v
    cases i with
    | zero => rfl
    | succ i => simp [setFastq, scriptsLoop, ih i (j + 1) v]

/-- Helper: the `samples` field of the configuration record is not read by
the loop body (the loop iterates over an explicitly passed list). -/
theorem scriptsLoop_samples_irrelevant (cfg : Config) (l : List Sample) (account : String) :
    ∀ (ss : List Sample) (j : Nat),
      scriptsLoop { cfg with samples := l } account j ss = scriptsLoop cfg account j ss := by
  intro ss
  induction ss with
  | nil => intro j; rfl
  | cons s rest ih =>
    intro j
    simp only [scriptsLoop, ih (j + 1)]
    rfl

/-- Helper: the whole write list of `generate_scripts` is unchanged when one
sample's `FASTQ` accession field is replaced (the field is never read). -/
theorem generateScripts_setFastq (cfg : Config) (account : String) (i : Nat) (v : String) :
    generateScripts { cfg with samples := setFastq cfg.samples i v } account
      = generateScripts cfg account := by
  show scriptsLoop { cfg with samples := setFastq cfg.samples i v } account 0
      (setFastq cfg.samples i v) = scriptsLoop cfg account 0 cfg.samples
  rw [scriptsLoop_samples_irrelevant]
  exact scriptsLoop_setFastq cfg account cfg.samples i 0 v

set_option maxRecDepth 4096 in
/-- C9: the `FASTQ` accession field of a sample has no influence on the
generated scripts — replacing it in any sample leaves the whole output of
`generate_scripts` unchanged — and the fetch command of the download script
is `fasterq-dump <local fastq directory of the sample>` (the accession is
not passed to it). -/
theorem C9_fastq_field_has_no_influence
    (cfg : Config) (account : String) (i : Nat) (v : String) (s : Sample) :
    generateScripts { cfg with samples := setFastq cfg.samples i v } account
        = generateScripts cfg account
    ∧ occursIn ("fasterq-dump " ++ samplePath cfg s ++ "\n") (downloadScript cfg account s) := by
  refine ⟨generateScripts_setFastq cfg account i v, ?_⟩
  unfold occursIn downloadScript
  refine ⟨(getScriptHeader account "00:30:00" 16 1
      ++ (cfg.sratoolkitActivation ++ "\n\n")).data, ?_, ?_⟩
  · exact ("\n"
      ++ ("search_dir=" ++ samplePath cfg s ++ "\n")
      ++ "for file in $search_dir/*; do\n"
      ++ "    echo $file\n"
      ++ "    if [[ $file == *\"_1.fastq\" ]]; then\n"
      ++ ("        mv $file " ++ nameRoot cfg s ++ "_R1_001.fastq\n")
      ++ "    elif [[ $file == *\"_2.fastq\" ]]; then\n"
      ++ ("        mv $file " ++ nameRoot cfg s ++ "_R2_001.fastq\n")
      ++ "    else\n"
      ++ ("        mv $file " ++ nameRoot cfg s ++ "_R1_001.fastq\n")
      ++ "    fi\n"
      ++ "done\n\n"
      ++ ("cp " ++ s.image ++ " " ++ samplePath cfg s ++ "/image.tiff\n")).data
  · have h2 : "\n\n".data = "\n".data ++ "\n".data := rfl
    simp only [String.data_append, List.append_assoc, List.cons_append, List.nil_append, h2]

/-! ### Claims C5 and C10 (reference genome selection) -/

/-- Helper: the slide clause does not read the `reference` field. -/
theorem slideClause_reference (cfg : Config) (r : String) (s : Sample) :
    slideClause { cfg with reference := r } s = slideClause cfg s := rfl

set_option maxRecDepth 8192 in
/-- Helper: the processing script always contains the clause
`--transcriptome=<genome dir>/<selected version> \` on a line of its own. -/
theorem processScript_contains_transcriptome (cfg : Config) (account : String) (s : Sample) :
    occursIn ("--transcriptome=" ++ transcriptomePath cfg ++ " \\\n")
      (processScript cfg account s) := by
  unfold occursIn processScript processScriptCore
  refine ⟨(getScriptHeader account "00:55:00" 64 8
      ++ ("source " ++ srSource cfg ++ "\n\n")
      ++ "spaceranger count \\\n"
      ++ ("  --id=" ++ cfg.resultDirectory ++ " \\\n")
      ++ "  ").data, ?_, ?_⟩
  · exact (("  --fastqs=" ++ samplePath cfg s ++ " \\\n")
      ++ ("  --sample=" ++ s.name ++ " \\\n")
      ++ ("  --image=" ++ s.image ++ " \\\n")
      ++ "  --localcores=8 \\\n"
      ++ "  --localmem=64 \\\n"
      ++ "  -create-bam=false \\\n"
      ++ slideClause cfg s).data
  · simp only [String.data_append, List.append_assoc, List.cons_append, List.nil_append]

set_option maxRecDepth 8192 in
/-- C5: `reference = "human"` makes the processing script use the human
transcriptome path and `reference = "mouse"` the mouse transcriptome path;
moreover, for any change of the `reference` field alone, the processing
script changes only in the transcriptome-version component (fixed prefix and
suffix), the download script is unchanged, and the generated file names are
unchanged. -/
theorem C5_reference_selects_transcriptome (cfg : Config) (account : String) (s : Sample) :
    (cfg.reference = "human" →
      occursIn ("--transcriptome=" ++ (cfg.genomeDirectory ++ "/" ++ HUMAN_REFERENCE_VERSION) ++ " \\\n")
        (processScript cfg account s))
    ∧ (cfg.reference = "mouse" →
      occursIn ("--transcriptome=" ++ (cfg.genomeDirectory ++ "/" ++ MOUSE_REFERENCE_VERSION) ++ " \\\n")
        (processScript cfg account s))
    ∧ ∃ pre post : List Char, ∀ r : String,
        (processScript { cfg with reference := r } account s).data
            = pre ++ (transcriptome { cfg with reference := r }).data ++ post
        ∧ downloadScript { cfg with reference := r } account s = downloadScript cfg account s
        ∧ (generateScripts { cfg with reference := r } account).map Prod.fst
            = (generateScripts cfg account).map Prod.fst := by
  refine ⟨?_, ?_, ?_⟩
  · intro h
    have hpath : transcriptomePath cfg = cfg.genomeDirectory ++ "/" ++ HUMAN_REFERENCE_VERSION := by
      rw [transcriptomePath, transcriptome, if_pos h]
    have := processScript_contains_transcriptome cfg account s
    rw [hpath] at this
    exact this
  · intro h
    have hne : cfg.reference ≠ "human" := by rw [h]; decide
    have hpath : transcriptomePath cfg = cfg.genomeDirectory ++ "/" ++ MOUSE_REFERENCE_VERSION := by
      rw [transcriptomePath, transcriptome, if_neg hne]
    have := processScript_contains_transcriptome cfg account s
    rw [hpath] at this
    exact this
  · refine ⟨(getScriptHeader account "00:55:00" 64 8
        ++ ("source " ++ srSource cfg ++ "\n\n")
        ++ "spaceranger count \\\n"
        ++ ("  --id=" ++ cfg.resultDirectory ++ " \\\n")
        ++ ("  --transcriptome=" ++ cfg.genomeDirectory ++ "/")).data,
      (" \\\n"
        ++ ("  --fastqs=" ++ samplePath cfg s ++ " \\\n")
        ++ ("  --sample=" ++ s.name ++ " \\\n")
        ++ ("  --image=" ++ s.image ++ " \\\n")
        ++ "  --localcores=8 \\\n"
        ++ "  --localmem=64 \\\n"
        ++ "  -create-bam=false \\\n"
        ++ slideClause cfg s).data, ?_⟩
    intro r
    refine ⟨?_, rfl, ?_⟩
    · simp only [processScript, processScriptCore, transcriptomePath, srSource, samplePath,
        fastqsDir, getScriptHeader, slideClause_reference, String.data_append,
        List.append_assoc, List.cons_append, List.nil_append]
    · rw [generateScripts_map_fst { cfg with reference := r } account,
        generateScripts_map_fst cfg account]
      rfl

/-! ### Partial configurations (modelling `KeyError` and invalid JSON)

`generate_scripts` reads the configuration with plain dictionary indexing, so
a missing key raises `KeyError` at the moment of access.  The partial model
mirrors the exact access order of the source and accumulates the file writes
performed before the first uncaught exception. -/

/-- A sample dictionary in which any key may be missing.  For `slide` and
`area` the outer `Option` is presence of the key, the inner `Option` is the
JSON `null` value. -/
structure RawSample where
  name : Option String
  FASTQ : Option String
  image : Option String
  slide : Option (Option String)
  area : Option (Option String)

/-- A configuration dictionary in which any top-level key may be missing. -/
structure RawConfig where
  pipelineName : Option String
  sratoolkitActivation : Option String
  spaceRangerDirectory : Option String
  genomeDirectory : Option String
  reference : Option String
  rawDataDirectory : Option String
  scriptDirectory : Option String
  resultDirectory : Option String
  version : Option String
  samples : Option (List RawSample)

/-- Python dictionary access: `d[k]` either yields the value or raises
`KeyError: k`. -/
def getKey (v : Option α) (k : String) : Except String α :=
  match v with
  | some x => Except.ok x
  | none => Except.error ("KeyError: " ++ k)

/-- Source lines 190-196 on a partial sample.  Mirrors the short-circuit of
`sample["slide"] == None or sample["area"] == None`: the `area` key is only
accessed when `slide` is present and not null, and the `version` key is only
accessed in the `--unknown-slide` branch. -/
def rawSlideClause (cfg : RawConfig) (s : RawSample) : Except String String := do
  let sl ← getKey s.slide "slide"
  match sl with
  | none => do
    let v ← getKey cfg.version "version"
    pure ("  --unknown-slide=" ++ v)
  | some slv => do
    let ar ← getKey s.area "area"
    match ar with
    | none => do
      let v ← getKey cfg.version "version"
      pure ("  --unknown-slide=" ++ v)
    | some arv => pure ("  --slide=" ++ slv ++ " \\\n" ++ ("  --area=" ++ arv))

/-- One iteration of the sample loop of `generate_scripts`
(source lines 161-219) on a partial configuration, with the dictionary
accesses in source order (lines 163, 165, 168, 181, 184, 185, 189, 190-196,
212).  All accesses happen while the two script bodies are built, before
either file of the iteration is written, so a missing key yields no write
from this iteration. -/
def rawIteration (cfg : RawConfig) (account rawdir results : String) (i : Nat)
    (s : RawSample) : Except String (List (String × String)) := do
  let nm ← getKey s.name "name"
  let pipeline ← getKey cfg.pipelineName "pipeline name"
  let sra ← getKey cfg.sratoolkitActivation "sratoolkit activation"
  let img ← getKey s.image "image"
  let srd ← getKey cfg.spaceRangerDirectory "space ranger directory"
  let ref ← getKey cfg.reference "reference"
  let gd ← getKey cfg.genomeDirectory "genome directory"
  let slideStr ← rawSlideClause cfg s
  let sdir ← getKey cfg.scriptDirectory "script directory"
  let cfgP : Config := ⟨pipeline, sra, srd, gd, ref, rawdir, sdir, results, "", []⟩
  let sP : Sample := ⟨nm, "", img, none, none⟩
  pure [(sdir ++ "/download_" ++ toString i ++ ".sh", downloadScript cfgP account sP),
        (sdir ++ "/process_" ++ toString i ++ ".sh", processScriptCore cfgP account sP slideStr)]

/-- The sample loop on a partial configuration: writes of the completed
iterations accumulate; the first `KeyError` aborts the loop, keeping the
writes already performed. -/
def rawLoop (cfg : RawConfig) (account rawdir results : String) :
    Nat → List RawSample → List (String × String) × Option String
  | _, [] => ([], none)
  | i, s :: rest =>
    match rawIteration cfg account rawdir results i s with
    | Except.error e => ([], some e)
    | Except.ok files =>
      match rawLoop cfg account rawdir results (i + 1) rest with
      | (w, err) => (files ++ w, err)

/-- The prologue of `generate_scripts` (source lines 152-161): top-level key
accesses performed before the sample loop, in source order. -/
def rawPrologue (cfg : RawConfig) : Except String (String × String × List RawSample) := do
  let rawdir ← getKey cfg.rawDataDirectory "raw data directory"
  let results ← getKey cfg.resultDirectory "result directory"
  let _sdir ← getKey cfg.scriptDirectory "script directory"
  let samples ← getKey cfg.samples "samples"
  pure (rawdir, results, samples)

/-- Source lines 146-219, `generate_scripts`, on the result of `json.load`:
`none` models a file that is not valid JSON (`json.load` raises before any
other statement runs).  The result is the list of files written, in order,
together with the uncaught exception that aborted the command, if any. -/
def generateScriptsRaw (parsed : Option RawConfig) (account : String) :
    List (String × String) × Option String :=
  match parsed with
  | none => ([], some "json.decoder.JSONDecodeError")
  | some cfg =>
    match rawPrologue cfg with
    | Except.error e => ([], some e)
    | Except.ok (rawdir, results, samples) => rawLoop cfg account rawdir results 0 samples

/-- A complete sample viewed as a partial one: every key present. -/
def rawOfSample (s : Sample) : RawSample :=
  ⟨some s.name, some s.FASTQ, some s.image, some s.slide, some s.area⟩

/-- A complete configuration viewed as a partial one. -/
def rawOfConfig (cfg : Config) : RawConfig :=
  ⟨some cfg.pipelineName, some cfg.sratoolkitActivation, some cfg.spaceRangerDirectory,
    some cfg.genomeDirectory, some cfg.reference, some cfg.rawDataDirectory,
    some cfg.scriptDirectory, some cfg.resultDirectory, some cfg.version,
    some (cfg.samples.map rawOfSample)⟩

theorem rawSlideClause_complete (cfg : Config) (s : Sample) :
    rawSlideClause (rawOfConfig cfg) (rawOfSample s) = Except.ok (slideClause cfg s) := by
  cases hs : s.slide <;> cases ha : s.area <;>
    simp only [rawSlideClause, rawOfConfig, rawOfSample, getKey, slideClause, hs, ha] <;> rfl

theorem rawIteration_complete (cfg : Config) (account : String) (i : Nat) (s : Sample) :
    rawIteration (rawOfConfig cfg) account cfg.rawDataDirectory cfg.resultDirectory i (rawOfSample s)
      = Except.ok [(downloadName cfg i, downloadScript cfg account s),
                   (processName cfg i, processScript cfg account s)] := by
  simp only [rawIteration, rawSlideClause_complete]
  simp only [rawOfConfig, rawOfSample, getKey]
  rfl

theorem rawLoop_complete (cfg : Config) (account : String) :
    ∀ (ss : List Sample) (i : Nat),
      rawLoop (rawOfConfig cfg) account cfg.rawDataDirectory cfg.resultDirectory i
          (ss.map rawOfSample)
        = (scriptsLoop cfg account i ss, none) := by
  intro ss
  induction ss with
  | nil => intro i; rfl
  | cons s rest ih =>
    intro i
    simp only [List.map_cons, rawLoop, rawIteration_complete cfg account i s, ih (i + 1),
      scriptsLoop]
    rfl

/-- Helper: on a complete configuration the partial model performs exactly
the writes of `generate_scripts` and raises nothing (in particular no
validation error occurs, whatever the value of `reference`). -/
theorem generateScriptsRaw_complete (cfg : Config) (account : String) :
    generateScriptsRaw (some (rawOfConfig cfg)) account = (generateScripts cfg account, none) := by
  simp only [generateScriptsRaw, rawPrologue, rawOfConfig, getKey]
  exact rawLoop_complete cfg account cfg.samples 0

/-! ### Concrete demonstration data used by witnesses and counterexamples -/

/-- A concrete sample with `slide`/`area` null, as in the generated example
configuration. -/
def demoSample : Sample :=
  { name := "A1", FASTQ := "SRR000001", image := "A1_high_res.tiff",
    slide := none, area := none }

/-- A concrete sample with both `slide` and `area` set. -/
def demoSampleSlide : Sample :=
  { name := "C1", FASTQ := "SRR000003", image := "C1_high_res.tiff",
    slide := some "V19J01-123", area := some "B1" }

/-- A concrete complete configuration. -/
def demoConfig : Config :=
  { pipelineName := "TEST_PIPELINE",
    sratoolkitActivation := "module load mugqic/sratoolkit/2.10.5",
    spaceRangerDirectory := "~/visium/spaceranger-3.0.0",
    genomeDirectory := "~/visium/references",
    reference := "human",
    rawDataDirectory := "~/visium/data",
    scriptDirectory := "~/visium/scripts",
    resultDirectory := "~/visium/results",
    version := "visium-2",
    samples := [demoSample] }

/-- C10: any `reference` value other than `"human"` — not only `"mouse"` —
selects the mouse transcriptome path in the processing script, and no
validation error is raised for an out-of-enum value (the run completes with
no exception). -/
theorem C10_non_human_reference_selects_mouse
    (cfg : Config) (account : String) (s : Sample) (h : cfg.reference ≠ "human") :
    occursIn ("--transcriptome=" ++ (cfg.genomeDirectory ++ "/" ++ MOUSE_REFERENCE_VERSION) ++ " \\\n")
      (processScript cfg account s)
    ∧ (generateScriptsRaw (some (rawOfConfig cfg)) account).2 = none := by
  constructor
  · have hpath : transcriptomePath cfg = cfg.genomeDirectory ++ "/" ++ MOUSE_REFERENCE_VERSION := by
      rw [transcriptomePath, transcriptome, if_neg h]
    have hx := processScript_contains_transcriptome cfg account s
    rw [hpath] at hx
    exact hx
  · rw [generateScriptsRaw_complete]

/-- Witness for C10 at a concrete misspelled reference value. -/
theorem C10_non_human_reference_witness :
    occursIn ("--transcriptome=" ++ ("~/visium/references" ++ "/" ++ MOUSE_REFERENCE_VERSION) ++ " \\\n")
      (processScript { demoConfig with reference := "Human" } "def-account" demoSample)
    ∧ (generateScriptsRaw (some (rawOfConfig { demoConfig with reference := "Human" }))
        "def-account").2 = none :=
  C10_non_human_reference_selects_mouse { demoConfig with reference := "Human" }
    "def-account" demoSample (by decide)

/-! ### Claim C7 (abort before writing on invalid input) -/

/-- C7 (amended part): if the configuration file is not valid JSON, or one of
the keys read before the sample loop (`raw data directory`,
`result directory`, `script directory`, `samples`) is missing, then
`generate_scripts` aborts without writing any script file. -/
theorem C7_no_write_before_sample_loop :
    (∀ account : String,
      generateScriptsRaw none account = ([], some "json.decoder.JSONDecodeError"))
    ∧ ∀ (cfg : RawConfig) (account : String),
        cfg.rawDataDirectory = none ∨ cfg.resultDirectory = none ∨
          cfg.scriptDirectory = none ∨ cfg.samples = none →
        (generateScriptsRaw (some cfg) account).1 = [] := by
  refine ⟨fun _ => rfl, ?_⟩
  intro cfg account h
  rcases cfg with ⟨p, sra, srd, gd, ref, rawd, scriptd, resultd, v, smp⟩
  cases rawd <;> cases resultd <;> cases scriptd <;> cases smp <;>
    first
      | rfl
      | simp at h

/-- Witness for C7 at a concrete partial configuration missing `samples`. -/
theorem C7_no_write_witness :
    (generateScriptsRaw (some { rawOfConfig demoConfig with samples := none })
        "def-account").1 = [] :=
  C7_no_write_before_sample_loop.2 { rawOfConfig demoConfig with samples := none }
    "def-account" (Or.inr (Or.inr (Or.inr rfl)))

/-- A sample dictionary missing the required `image` key. -/
def badSample : RawSample :=
  { name := some "B1", FASTQ := some "SRR000002", image := none,
    slide := some none, area := some none }

/-- A partial configuration whose second sample is missing `image`:
valid JSON, all top-level keys present, first sample complete. -/
def twoSampleRawConfig : RawConfig :=
  { rawOfConfig demoConfig with samples := some [rawOfSample demoSample, badSample] }

/-- Counterexample to C7 as stated: on `twoSampleRawConfig` (two samples, the
second missing its `image` key) the run aborts with `KeyError: image`, yet
the two script files of the first sample have already been written — the
output is partial, neither empty nor complete (complete would be
`2 * 2 = 4` files). -/
theorem C7_partial_output_counterexample :
    (generateScriptsRaw (some twoSampleRawConfig) "def-account").2 = some "KeyError: image"
    ∧ (generateScriptsRaw (some twoSampleRawConfig) "def-account").1.length = 2
    ∧ (generateScriptsRaw (some twoSampleRawConfig) "def-account").1.length ≠ 0
    ∧ (generateScriptsRaw (some twoSampleRawConfig) "def-account").1.length ≠ 2 * 2 := by
  refine ⟨rfl, rfl, ?_, ?_⟩ <;> decide

/-! ### Claim C8 (`create_config`) -/

/-- A JSON value, sufficient for the document written by `create_config`. -/
inductive Json where
  | null : Json
  | str : String → Json
  | arr : List Json → Json
  | obj : List (String × Json) → Json

/-- Key lookup in a JSON object member list. -/
def jsonLookup : List (String × Json) → String → Option Json
  | [], _ => none
  | (k, v) :: rest, key => if k = key then some v else jsonLookup rest key

/-- Models Python `str.endswith`. -/
def pyEndsWith (s suffix : String) : Bool :=
  decide (suffix.data <:+ s.data)

/-- Source lines 117-140: the example configuration document written by
`create_config`; `now` stands for `str(datetime.datetime.now())`. -/
def emptyConfigJson (now : String) : Json :=
  Json.obj [
    ("metadata", Json.obj [
      ("File generation date", Json.str now),
      ("Information", Json.str "Edit this file to add references to the 10X Visium data to process. Run `python3 sr-helper.py help create-config` to se how to edit it.")]),
    ("pipeline name", Json.str "TEST_PIPELINE"),
    ("sratoolkit activation", Json.str "module load mugqic/sratoolkit/2.10.5"),
    ("space ranger directory", Json.str "~/visium/spaceranger-3.0.0"),
    ("genome directory", Json.str "~/visium/references"),
    ("reference", Json.str "human"),
    ("raw data directory", Json.str "~/visium/data"),
    ("script directory", Json.str "~/visium/scripts"),
    ("result directory", Json.str "~/visium/results"),
    ("version", Json.str "visium-2"),
    ("samples", Json.arr [Json.obj [
      ("name", Json.str "A1"),
      ("FASTQ", Json.str "SRR REFERENCE NUMBER"),
      ("image", Json.str "A1_high_res.tiff"),
      ("slide", Json.null),
      ("area", Json.null)]])]

/-- Source lines 107-143, `create_config`: a name not ending in `.json` is
rejected (a message is printed and nothing is written, modelled by `none`);
otherwise the example document is written to the given name.  `json.dump`
of the in-memory dictionary always produces valid JSON, so the written file
is modelled by the document itself. -/
def createConfig (now output : String) : Option (String × Json) :=
  if pyEndsWith output ".json" then some (output, emptyConfigJson now) else none

/-- The value of a key is a JSON string. -/
def isStrVal : Option Json → Bool
  | some (Json.str _) => true
  | _ => false

/-- The key is present (any value). -/
def isPresent : Option Json → Bool
  | some _ => true
  | _ => false

/-- The documented per-sample schema: keys `name`, `FASTQ`, `image` (strings)
and `slide`, `area` (present, possibly null). -/
def sampleSchemaOK : Json → Bool
  | Json.obj kvs =>
      isStrVal (jsonLookup kvs "name") && isStrVal (jsonLookup kvs "FASTQ")
      && isStrVal (jsonLookup kvs "image") && isPresent (jsonLookup kvs "slide")
      && isPresent (jsonLookup kvs "area")
  | _ => false

/-- The documented configuration schema: the string-valued top-level keys,
`reference` restricted to `"human"`/`"mouse"`, and `samples` an array of
objects each satisfying the sample schema. -/
def configSchemaOK : Json → Bool
  | Json.obj kvs =>
      isStrVal (jsonLookup kvs "pipeline name")
      && isStrVal (jsonLookup kvs "sratoolkit activation")
      && isStrVal (jsonLookup kvs "space ranger directory")
      && isStrVal (jsonLookup kvs "genome directory")
      && isStrVal (jsonLookup kvs "raw data directory")
      && isStrVal (jsonLookup kvs "script directory")
      && isStrVal (jsonLookup kvs "result directory")
      && isStrVal (jsonLookup kvs "version")
      && (match jsonLookup kvs "reference" with
          | some (Json.str r) => r == "human" || r == "mouse"
          | _ => false)
      && (match jsonLookup kvs "samples" with
          | some (Json.arr xs) => xs.all sampleSchemaOK
          | _ => false)
  | _ => false

/-- C8: `create_config` writes no file when the output name does not end in
`.json` (an error message is printed instead), and otherwise writes a JSON
document that parses back into the documented configuration schema. -/
theorem C8_create_config (now output : String) :
    (pyEndsWith output ".json" = false → createConfig now output = none)
    ∧ (pyEndsWith output ".json" = true →
        createConfig now output = some (output, emptyConfigJson now)
        ∧ configSchemaOK (emptyConfigJson now) = true) := by
  constructor
  · intro h
    simp [createConfig, h]
  · intro h
    refine ⟨by simp [createConfig, h], rfl⟩

/-- Witness for C8 at the concrete names `config.txt` and `out.json`. -/
theorem C8_create_config_witness :
    createConfig "2026-10-12 00:00:00" "config.txt" = none
    ∧ createConfig "2026-10-12 00:00:00" "out.json"
        = some ("out.json", emptyConfigJson "2026-10-12 00:00:00")
    ∧ configSchemaOK (emptyConfigJson "2026-10-12 00:00:00") = true :=
  ⟨(C8_create_config "2026-10-12 00:00:00" "config.txt").1 (by decide),
    ((C8_create_config "2026-10-12 00:00:00" "out.json").2 (by decide)).1,
    ((C8_create_config "2026-10-12 00:00:00" "out.json").2 (by decide)).2⟩

/-! ### Substring-absence machinery for claim C4

To prove that a script *does not* contain a flag such as `--slide=`, the
script is decomposed into segments: string literals from the source text and
interpolated configuration fields.  An occurrence of the flag would have to
lie inside a literal, inside a field, or straddle a boundary; each case is
refuted — decidably for the literals, by hypothesis for the fields. -/

theorem occurrence_split {p l₁ l₂ : List Char} (h : p <:+: l₁ ++ l₂) :
    p <:+: l₁ ∨ p <:+: l₂ ∨
      ∃ t₁ t₂, t₁ ++ t₂ = p ∧ t₁ ≠ [] ∧ t₂ ≠ [] ∧ t₁ <:+ l₁ ∧ t₂ <+: l₂ := by
  obtain ⟨u, v, huv⟩ := h
  rw [List.append_assoc] at huv
  rcases List.append_eq_append_iff.mp huv with ⟨a, ha₁, ha₂⟩ | ⟨c, _, hc₂⟩
  · rcases List.append_eq_append_iff.mp ha₂ with ⟨b, hb₁, _⟩ | ⟨d, hd₁, hd₂⟩
    · left
      exact ⟨u, b, by rw [ha₁, hb₁, List.append_assoc]⟩
    · by_cases hA : a = []
      · right; left
        refine ⟨[], v, ?_⟩
        rw [hd₂, hd₁, hA]
        simp
      · by_cases hD : d = []
        · left
          refine ⟨u, [], ?_⟩
          rw [ha₁, hd₁, hD]
          simp
        · right; right
          exact ⟨a, d, hd₁.symm, hA, hD, ⟨u, ha₁.symm⟩, ⟨v, hd₂.symm⟩⟩
  · right; left
    exact ⟨c, v, by rw [hc₂, List.append_assoc]⟩

theorem noOcc_concrete_append {p : List Char} (c rest : List Char)
    (hc : ¬ p <:+: c) (hrest : ¬ p <:+: rest)
    (hcross : ∀ t₁ ∈ p.inits, t₁ ≠ [] → t₁.length < p.length → ¬ t₁ <:+ c) :
    ¬ p <:+: c ++ rest := by
  intro h
  rcases occurrence_split h with h | h | ⟨t₁, t₂, ht, h1, h2, hs, hp⟩
  · exact hc h
  · exact hrest h
  · have hmem : t₁ ∈ p.inits := (List.mem_inits t₁ p).mpr ⟨t₂, ht⟩
    have hlen : t₁.length < p.length := by
      rw [← ht, List.length_append]
      have : 0 < t₂.length := List.length_pos.mpr h2
      omega
    exact hcross t₁ hmem h1 hlen hs

theorem noOcc_field_append {p : List Char} (f rest : List Char)
    (hf : ¬ p <:+: f) (hrest : ¬ p <:+: rest)
    (hhead : ∀ t₂ ∈ p.tails, t₂ ≠ [] → t₂.head? ≠ rest.head?) :
    ¬ p <:+: f ++ rest := by
  intro h
  rcases occurrence_split h with h | h | ⟨t₁, t₂, ht, _, h2, _, hp⟩
  · exact hf h
  · exact hrest h
  · have hmem : t₂ ∈ p.tails := (List.mem_tails t₂ p).mpr ⟨t₁, ht⟩
    have hhd : t₂.head? = rest.head? := by
      obtain ⟨r, hr⟩ := hp
      cases t₂ with
      | nil => exact absurd rfl h2
      | cons a t => rw [← hr]; rfl
    exact hhead t₂ hmem h2 hhd

theorem head?_append_left (l₁ l₂ : List Char) (h : l₁ ≠ []) :
    (l₁ ++ l₂).head? = l₁.head? := by
  cases l₁ with
  | nil => exact absurd rfl h
  | cons a t => rfl

/-- A segment of a generated script: a string literal from the source text,
or an interpolated field value. -/
inductive Seg where
  | lit : String → Seg
  | fld : List Char → Seg

/-- The characters contributed by a segment. -/
def segData : Seg → List Char
  | Seg.lit s => s.data
  | Seg.fld f => f

/-- The characters of a segment list. -/
def segsData : List Seg → List Char
  | [] => []
  | sg :: rest => segData sg ++ segsData rest

/-- The skeleton of a segment list: the literals, with fields erased. -/
def skelOf : List Seg → List (Option String)
  | [] => []
  | Seg.lit s :: rest => some s :: skelOf rest
  | Seg.fld _ :: rest => none :: skelOf rest

/-- Decidable check that the pattern `p` neither occurs in the literal `s`
nor has a nonempty proper prefix that is a suffix of `s` (so no occurrence
can start inside `s` and continue past its end). -/
def litOK (p : List Char) (s : String) : Bool :=
  decide (¬ p <:+: s.data) &&
    decide (∀ t₁ ∈ p.inits, t₁ ≠ [] → t₁.length < p.length → ¬ t₁ <:+ s.data)

/-- Decidable check that no nonempty suffix of `p` starts with the first
character of the literal `s` (so no occurrence can end inside the text that
follows a field beginning with `s`). -/
def headOKFor (p : List Char) (s : String) : Bool :=
  decide (s.data ≠ []) &&
    decide (∀ t₂ ∈ p.tails, t₂ ≠ [] → t₂.head? ≠ s.data.head?)

/-- Decidable skeleton check: every literal passes `litOK`, and every field
is last or followed by a literal passing `headOKFor`. -/
def skelOK (p : List Char) : List (Option String) → Bool
  | [] => true
  | some s :: rest => litOK p s && skelOK p rest
  | [none] => true
  | none :: some s :: rest => headOKFor p s && skelOK p (some s :: rest)
  | none :: none :: _ => false

theorem noOcc_segs (p : List Char) (hp : p ≠ []) :
    ∀ segs : List Seg,
      skelOK p (skelOf segs) = true →
      (∀ f, Seg.fld f ∈ segs → ¬ p <:+: f) →
      ¬ p <:+: segsData segs := by
  intro segs
  induction segs with
  | nil =>
    intro _ _ h
    obtain ⟨u, v, huv⟩ := h
    simp only [segsData, List.append_eq_nil] at huv
    exact hp huv.1.2
  | cons sg rest ih =>
    intro hsk hfld
    cases sg with
    | lit s =>
      simp only [skelOf, skelOK, Bool.and_eq_true] at hsk
      have h1 := of_decide_eq_true ((Bool.and_eq_true _ _).mp hsk.1).1
      have h2 := of_decide_eq_true ((Bool.and_eq_true _ _).mp hsk.1).2
      exact noOcc_concrete_append s.data (segsData rest) h1
        (ih hsk.2 fun f hf => hfld f (List.mem_cons_of_mem _ hf)) h2
    | fld f =>
      have hff : ¬ p <:+: f := hfld f (List.mem_cons_self _ _)
      cases rest with
      | nil =>
        show ¬ p <:+: f ++ []
        rw [List.append_nil]
        exact hff
      | cons sg' rest' =>
        cases sg' with
        | lit s =>
          have hsk' : (headOKFor p s && skelOK p (skelOf (Seg.lit s :: rest'))) = true := hsk
          rcases (Bool.and_eq_true _ _).mp hsk' with ⟨hhok, hrest⟩
          have hne := of_decide_eq_true ((Bool.and_eq_true _ _).mp hhok).1
          have hhd := of_decide_eq_true ((Bool.and_eq_true _ _).mp hhok).2
          refine noOcc_field_append f (segsData (Seg.lit s :: rest')) hff
            (ih hrest fun g hg => hfld g (List.mem_cons_of_mem _ hg)) ?_
          intro t₂ hmem h2
          have hh : (segsData (Seg.lit s :: rest')).head? = s.data.head? := by
            show (s.data ++ segsData rest').head? = s.data.head?
            exact head?_append_left s.data (segsData rest') hne
          rw [hh]
          exact hhd t₂ hmem h2
        | fld g =>
          exact absurd hsk (by simp only [skelOf, skelOK]; exact Bool.false_ne_true)

/-- The processing script in the `--unknown-slide` case, decomposed into
literal and field segments (`ver` is the selected transcriptome version). -/
def unknownProcessSegs (cfg : Config) (account : String) (s : Sample) (ver : String) : List Seg :=
  [Seg.lit "#!/bin/bash\n", Seg.lit "#SBATCH --account=", Seg.fld account.data, Seg.lit "\n",
   Seg.lit "#SBATCH --time=", Seg.lit "00:55:00", Seg.lit "\n",
   Seg.lit "#SBATCH --mem=", Seg.lit (toString 64), Seg.lit "G\n",
   Seg.lit "#SBATCH --cpus-per-task=", Seg.lit (toString 8), Seg.lit "\n\n",
   Seg.lit "source ", Seg.fld cfg.spaceRangerDirectory.data, Seg.lit "/sourceme.bash",
   Seg.lit "\n\n", Seg.lit "spaceranger count \\\n",
   Seg.lit "  --id=", Seg.fld cfg.resultDirectory.data, Seg.lit " \\\n",
   Seg.lit "  --transcriptome=", Seg.fld cfg.genomeDirectory.data, Seg.lit "/", Seg.lit ver,
   Seg.lit " \\\n",
   Seg.lit "  --fastqs=", Seg.fld cfg.rawDataDirectory.data, Seg.lit "/fastq", Seg.lit "/",
   Seg.fld s.name.data, Seg.lit " \\\n",
   Seg.lit "  --sample=", Seg.fld s.name.data, Seg.lit " \\\n",
   Seg.lit "  --image=", Seg.fld s.image.data, Seg.lit " \\\n",
   Seg.lit "  --localcores=8 \\\n", Seg.lit "  --localmem=64 \\\n",
   Seg.lit "  -create-bam=false \\\n",
   Seg.lit "  --unknown-slide=", Seg.fld cfg.version.data]

/-- The skeleton of `unknownProcessSegs` (a closed list: fields erased). -/
def unknownSkel (ver : String) : List (Option String) :=
  [some "#!/bin/bash\n", some "#SBATCH --account=", none, some "\n",
   some "#SBATCH --time=", some "00:55:00", some "\n",
   some "#SBATCH --mem=", some (toString 64), some "G\n",
   some "#SBATCH --cpus-per-task=", some (toString 8), some "\n\n",
   some "source ", none, some "/sourceme.bash",
   some "\n\n", some "spaceranger count \\\n",
   some "  --id=", none, some " \\\n",
   some "  --transcriptome=", none, some "/", some ver,
   some " \\\n",
   some "  --fastqs=", none, some "/fastq", some "/",
   none, some " \\\n",
   some "  --sample=", none, some " \\\n",
   some "  --image=", none, some " \\\n",
   some "  --localcores=8 \\\n", some "  --localmem=64 \\\n",
   some "  -create-bam=false \\\n",
   some "  --unknown-slide=", none]

theorem skelOf_unknownProcessSegs (cfg : Config) (account : String) (s : Sample) (ver : String) :
    skelOf (unknownProcessSegs cfg account s ver) = unknownSkel ver := rfl

set_option maxRecDepth 8192 in
/-- The processing script is, character for character, the concatenation of
its segment decomposition in the unknown-slide case. -/
theorem unknownProcess_data_eq (cfg : Config) (account : String) (s : Sample) (ver : String)
    (hver : transcriptome cfg = ver)
    (hsl : slideClause cfg s = "  --unknown-slide=" ++ cfg.version) :
    (processScript cfg account s).data = segsData (unknownProcessSegs cfg account s ver) := by
  simp only [processScript, processScriptCore, getScriptHeader, srSource, transcriptomePath,
    samplePath, fastqsDir, hver, hsl, unknownProcessSegs, segsData, segData,
    String.data_append, List.append_assoc, List.append_nil, List.cons_append, List.nil_append]

theorem unknownProcessSegs_fields (p : List Char) (cfg : Config) (account : String)
    (s : Sample) (ver : String)
    (hfields : ∀ f ∈ [account, cfg.spaceRangerDirectory, cfg.resultDirectory,
        cfg.genomeDirectory, cfg.rawDataDirectory, s.name, s.image, cfg.version],
        ¬ p <:+: f.data) :
    ∀ f, Seg.fld f ∈ unknownProcessSegs cfg account s ver → ¬ p <:+: f := by
  intro f hf
  simp only [unknownProcessSegs, List.mem_cons, List.not_mem_nil, or_false,
    Seg.fld.injEq, reduceCtorEq, false_or] at hf
  rcases hf with h | h | h | h | h | h | h | h | h <;>
    · subst h
      exact hfields _ (by simp)

/-- Core absence lemma for C4: when the slide clause is the
`--unknown-slide` one and no interpolated field contains the pattern, the
whole processing script does not contain the pattern. -/
theorem noOcc_processScript_unknown (p : List Char) (hp : p ≠ [])
    (cfg : Config) (account : String) (s : Sample)
    (hsl : slideClause cfg s = "  --unknown-slide=" ++ cfg.version)
    (hfields : ∀ f ∈ [account, cfg.spaceRangerDirectory, cfg.resultDirectory,
        cfg.genomeDirectory, cfg.rawDataDirectory, s.name, s.image, cfg.version],
        ¬ p <:+: f.data)
    (hskH : skelOK p (unknownSkel HUMAN_REFERENCE_VERSION) = true)
    (hskM : skelOK p (unknownSkel MOUSE_REFERENCE_VERSION) = true) :
    ¬ p <:+: (processScript cfg account s).data := by
  by_cases hr : cfg.reference = "human"
  · rw [unknownProcess_data_eq cfg account s HUMAN_REFERENCE_VERSION
      (by rw [transcriptome, if_pos hr]) hsl]
    refine noOcc_segs p hp _ ?_ (unknownProcessSegs_fields p cfg account s _ hfields)
    rw [skelOf_unknownProcessSegs]
    exact hskH
  · rw [unknownProcess_data_eq cfg account s MOUSE_REFERENCE_VERSION
      (by rw [transcriptome, if_neg hr]) hsl]
    refine noOcc_segs p hp _ ?_ (unknownProcessSegs_fields p cfg account s _ hfields)
    rw [skelOf_unknownProcessSegs]
    exact hskM

set_option maxRecDepth 8192 in
/-- Helper: the processing script ends with the slide clause. -/
theorem processScript_slide_suffix (cfg : Config) (account : String) (s : Sample) :
    ∃ pre : List Char, (processScript cfg account s).data = pre ++ (slideClause cfg s).data := by
  refine ⟨(getScriptHeader account "00:55:00" 64 8
    ++ ("source " ++ srSource cfg ++ "\n\n")
    ++ "spaceranger count \\\n"
    ++ ("  --id=" ++ cfg.resultDirectory ++ " \\\n")
    ++ ("  --transcriptome=" ++ transcriptomePath cfg ++ " \\\n")
    ++ ("  --fastqs=" ++ samplePath cfg s ++ " \\\n")
    ++ ("  --sample=" ++ s.name ++ " \\\n")
    ++ ("  --image=" ++ s.image ++ " \\\n")
    ++ "  --localcores=8 \\\n"
    ++ "  --localmem=64 \\\n"
    ++ "  -create-bam=false \\\n").data, ?_⟩
  simp only [processScript, processScriptCore, String.data_append, List.append_assoc]

set_option maxRecDepth 8192 in
/-- C4: when both `slide` and `area` are set the processing script contains
the explicit clauses `--slide=<slide>` and `--area=<area>` (separated by a
shell line continuation in the script text); otherwise it contains
`--unknown-slide=<version>` with the configuration's version tag and no
`--slide=` or `--area=` clause.  The hypothesis rules out the degenerate
configurations whose interpolated path/name fields themselves contain the
literal flag texts. -/
theorem C4_slide_clause (cfg : Config) (account : String) (s : Sample)
    (hfree : ∀ f ∈ [account, cfg.spaceRangerDirectory, cfg.resultDirectory,
        cfg.genomeDirectory, cfg.rawDataDirectory, s.name, s.image, cfg.version],
        ¬ occursIn "--slide=" f ∧ ¬ occursIn "--area=" f) :
    (∀ sl ar, s.slide = some sl → s.area = some ar →
        occursIn ("--slide=" ++ sl) (processScript cfg account s)
        ∧ occursIn ("--area=" ++ ar) (processScript cfg account s))
    ∧ ((s.slide = none ∨ s.area = none) →
        occursIn ("--unknown-slide=" ++ cfg.version) (processScript cfg account s)
        ∧ ¬ occursIn "--slide=" (processScript cfg account s)
        ∧ ¬ occursIn "--area=" (processScript cfg account s)) := by
  obtain ⟨pre, hpre⟩ := processScript_slide_suffix cfg account s
  constructor
  · intro sl ar hs1 ha1
    have hclause : slideClause cfg s = "  --slide=" ++ sl ++ " \\\n" ++ ("  --area=" ++ ar) := by
      simp [slideClause, hs1, ha1]
    constructor
    · unfold occursIn
      refine ⟨pre ++ "  ".data, (" \\\n" ++ ("  --area=" ++ ar)).data, ?_⟩
      rw [hpre, hclause]
      simp only [String.data_append, List.append_assoc, List.cons_append, List.nil_append]
    · unfold occursIn
      refine ⟨pre ++ ("  --slide=" ++ sl ++ " \\\n" ++ "  ").data, [], ?_⟩
      rw [hpre, hclause]
      simp only [String.data_append, List.append_assoc, List.append_nil,
        List.cons_append, List.nil_append]
  · intro hun
    have hclause : slideClause cfg s = "  --unknown-slide=" ++ cfg.version := by
      rcases hun with h | h
      · cases ha : s.area <;> simp [slideClause, h, ha]
      · cases hs2 : s.slide <;> simp [slideClause, h, hs2]
    refine ⟨?_, ?_, ?_⟩
    · unfold occursIn
      refine ⟨pre ++ "  ".data, [], ?_⟩
      rw [hpre, hclause]
      simp only [String.data_append, List.append_assoc, List.append_nil,
        List.cons_append, List.nil_append]
    · exact noOcc_processScript_unknown "--slide=".data (by decide) cfg account s hclause
        (fun f hf => (hfree f hf).1) (by decide) (by decide)
    · exact noOcc_processScript_unknown "--area=".data (by decide) cfg account s hclause
        (fun f hf => (hfree f hf).2) (by decide) (by decide)

/-- Witness for C4 at a concrete configuration: a sample with slide and area
set gets the explicit clauses; a sample with null slide/area gets the
`--unknown-slide` clause and no slide/area flags. -/
theorem C4_slide_clause_witness :
    (occursIn ("--slide=" ++ "V19J01-123") (processScript demoConfig "def-account" demoSampleSlide)
      ∧ occursIn ("--area=" ++ "B1") (processScript demoConfig "def-account" demoSampleSlide))
    ∧ (occursIn ("--unknown-slide=" ++ "visium-2") (processScript demoConfig "def-account" demoSample)
      ∧ ¬ occursIn "--slide=" (processScript demoConfig "def-account" demoSample)
      ∧ ¬ occursIn "--area=" (processScript demoConfig "def-account" demoSample)) :=
  ⟨(C4_slide_clause demoConfig "def-account" demoSampleSlide (by decide)).1
      "V19J01-123" "B1" rfl rfl,
    (C4_slide_clause demoConfig "def-account" demoSample (by decide)).2 (Or.inl rfl)⟩

/-- Witness for C5 at a concrete configuration: the human and mouse
transcriptome paths appear for the respective reference values. -/
theorem C5_reference_witness :
    occursIn ("--transcriptome=" ++ ("~/visium/references" ++ "/" ++ HUMAN_REFERENCE_VERSION) ++ " \\\n")
      (processScript demoConfig "def-account" demoSample)
    ∧ occursIn ("--transcriptome=" ++ ("~/visium/references" ++ "/" ++ MOUSE_REFERENCE_VERSION) ++ " \\\n")
      (processScript { demoConfig with reference := "mouse" } "def-account" demoSample) :=
  ⟨(C5_reference_selects_transcriptome demoConfig "def-account" demoSample).1 rfl,
    (C5_reference_selects_transcriptome { demoConfig with reference := "mouse" }
      "def-account" demoSample).2.1 rfl⟩

end SrHelper
